import Mathlib

/-!
# gitploy: clone, commit and push over an external git library

A shallow embedding of `main.go`.  The program is glue code over go-git, the
filesystem, the environment and the clock; none of those live in the
repository, so every call into them is logged with its arguments (`Call`) and
answered from a record of outcomes.  The program's own text (the lines it
prints and the error values it builds) is computed exactly as the source
builds it.
-/

namespace Gitploy

/-! ## Go values -/

/-- Go `error` value: a message, and for an error built by `fmt.Errorf` with
`%w` the cause it wraps. -/
inductive GoError where
  | leaf (msg : String)
  | wrap (msg : String) (cause : GoError)
  deriving DecidableEq, Repr

/-- Method `Error()`: the message. -/
def GoError.Error : GoError → String
  | .leaf m => m
  | .wrap m _ => m

/-- Method `Unwrap()`: the wrapped cause, if any. -/
def GoError.Unwrap : GoError → Option GoError
  | .leaf _ => none
  | .wrap _ c => some c

/-- Go `len(s)` on a string: the number of bytes of its UTF-8 encoding. -/
def goLen (s : String) : Nat := s.utf8ByteSize

/-- Go `[]byte(s)`: the bytes of the string. -/
def goBytes (s : String) : List UInt8 := s.toUTF8.toList

/-- Substring test on Go strings. -/
def hasSubstr (s t : String) : Prop := t.data <:+: s.data

instance (s t : String) : Decidable (hasSubstr s t) := by
  unfold hasSubstr; infer_instance

/-- Handle of an opened `*git.Repository`. -/
abbrev RepoHandle := Nat
/-- Handle of a `*git.Worktree`. -/
abbrev TreeHandle := Nat
/-- Value of `plumbing.Hash`. -/
abbrev Hash := String
/-- Value of `time.Time`. -/
abbrev Time := Nat

/-- Type `Repo` of the source. -/
structure Repo where
  Url : String
  Directory : String
  token : String
  deriving DecidableEq, Repr

/-- Type `http.BasicAuth`. -/
structure BasicAuth where
  Username : String
  Password : String
  deriving DecidableEq, Repr

/-- Destination of the library's progress output. -/
inductive Writer where
  | stdout
  deriving DecidableEq, Repr

/-- Type `git.CloneOptions`, the fields the source sets. -/
structure CloneOptions where
  Auth : BasicAuth
  URL : String
  Progress : Writer
  deriving DecidableEq, Repr

/-- Type `object.Signature`. -/
structure Signature where
  Name : String
  Email : String
  When : Time
  deriving DecidableEq, Repr

/-- Type `git.CommitOptions`, the field the source sets. -/
structure CommitOptions where
  Author : Signature
  deriving DecidableEq, Repr

/-- Type `git.PushOptions`, the field the source sets. -/
structure PushOptions where
  Auth : BasicAuth
  deriving DecidableEq, Repr

/-- A call into the standard library or go-git, with its arguments. -/
inductive Call where
  | tempDir (dir pattern : String)
  | getenv (key : String)
  | timeNow
  | plainClone (path : String) (isBare : Bool) (o : CloneOptions)
  | head (rc : RepoHandle)
  | commitObject (rc : RepoHandle) (h : Hash)
  | plainOpen (path : String)
  | worktree (rc : RepoHandle)
  | writeFile (filename : String) (data : List UInt8) (perm : Nat)
  | add (w : TreeHandle) (path : String)
  | status (w : TreeHandle)
  | commit (w : TreeHandle) (msg : String) (o : CommitOptions)
  | push (rc : RepoHandle) (o : PushOptions)
  deriving DecidableEq, Repr

/-! ## Outcomes of the external calls -/

/-- Type `fs.PathError`: the operation, the path it was applied to, and the
underlying cause. -/
structure PathError where
  Op : String
  Path : String
  Err : GoError
  deriving DecidableEq, Repr

/-- A `*fs.PathError` as a Go `error`: its method `Error()` returns
`Op + " " + Path + ": " + Err.Error()` and its method `Unwrap()` returns `Err`. -/
def PathError.toError (e : PathError) : GoError :=
  .wrap (e.Op ++ " " ++ e.Path ++ ": " ++ e.Err.Error) e.Err

/-- Outcome of `ioutil.TempDir("", "")`: the path of the directory it created,
or its error.  Every error it returns is a `*fs.PathError`: the one of the
failed `mkdir` of the candidate directory, the one of the `stat` of the
temporary root when that does not exist, or the one it builds itself when
every candidate name is taken. -/
inductive TempDirOutcome where
  | created (path : String)
  | failed (err : PathError)
  deriving DecidableEq, Repr

/-- Outcomes of the library calls of `cloneRepo`. -/
structure CloneOutcomes where
  plainClone : Except GoError RepoHandle
  head : Except GoError Hash
  commitObject : Except GoError String

/-- Outcomes of the library and filesystem calls of `commit`. -/
structure CommitOutcomes where
  plainOpen : Except GoError RepoHandle
  worktree : Except GoError TreeHandle
  writeFile : Option GoError
  add : Except GoError Hash
  status : Except GoError String
  now : Time
  commit : Except GoError Hash
  commitObject : Except GoError String

/-- Outcomes of the library calls of `push`. -/
structure PushOutcomes where
  plainOpen : Except GoError RepoHandle
  push : Option GoError

/-- Functions of the standard library the source uses as pure functions:
`filepath.Join` on two elements and `Time.Format` with the layout
`2006-01-02 15:04:05`. -/
structure Platform where
  join : String → String → String
  format : Time → String

/-- Everything outside the program during one run of `main`. -/
structure World where
  tempDir : TempDirOutcome
  getenv : String → String
  now : Time
  clone : CloneOutcomes
  commit : CommitOutcomes
  push : PushOutcomes

/-! ## The program -/

/-- Result of one of the `Repo` methods: the external calls it made, the lines
it printed itself on standard output, and the error it returned (`none` is
`nil`). -/
structure Res where
  calls : List Call
  out : List String
  err : Option GoError
  deriving DecidableEq, Repr

/-- Function `tempFolder`: the path and error it returns. -/
def tempFolder (t : TempDirOutcome) : String × Option GoError :=
  match t with
  | .failed pe =>
    let err := pe.toError
    ("", some (.wrap ("Error creating tempdir: " ++ err.Error) err))
  | .created path => (path, none)

/-- The one external call of `tempFolder`: `ioutil.TempDir("", "")`. -/
def tempFolderCalls : List Call := [Call.tempDir "" ""]

/-- Method `Repo.cloneRepo`. -/
def cloneRepo (o : CloneOutcomes) (r : Repo) : Res :=
  let out0 := ["git clone " ++ r.Url ++ " " ++ r.Directory]
  let c0 := [Call.plainClone r.Directory false
    { Auth := { Username := "abc123", Password := r.token }, URL := r.Url, Progress := .stdout }]
  match o.plainClone with
  | .error err =>
    ⟨c0, out0, some (.wrap ("Error cloning the repository " ++ r.Url ++ ": " ++ err.Error) err)⟩
  | .ok rc =>
    let c1 := c0 ++ [Call.head rc]
    match o.head with
    | .error err =>
      ⟨c1, out0, some (.wrap ("Error cloning the repository " ++ r.Url ++ ": " ++ err.Error) err)⟩
    | .ok ref =>
      let c2 := c1 ++ [Call.commitObject rc ref]
      match o.commitObject with
      | .error err =>
        ⟨c2, out0, some (.wrap ("Error cloning the repository " ++ r.Url ++ ": " ++ err.Error) err)⟩
      | .ok commit => ⟨c2, out0 ++ [commit], none⟩

/-- Method `Repo.commit`. -/
def commit (P : Platform) (o : CommitOutcomes) (r : Repo) (msg : String) : Res :=
  let c0 := [Call.plainOpen r.Directory]
  match o.plainOpen with
  | .error err =>
    ⟨c0, [], some (.wrap ("Error opening the repo in directory " ++ r.Directory ++ ": " ++ err.Error) err)⟩
  | .ok rc =>
    let c1 := c0 ++ [Call.worktree rc]
    match o.worktree with
    | .error err => ⟨c1, [], some (.wrap ("Error to get the Worktree: " ++ err.Error) err)⟩
    | .ok w =>
      let out1 := ["echo \"hello world!\" > example-git-file"]
      let filename := P.join r.Directory "example-git-file"
      let c2 := c1 ++ [Call.writeFile filename (goBytes msg) 0o644]
      match o.writeFile with
      | some err =>
        ⟨c2, out1, some (.wrap ("Error writing to file " ++ filename ++ ": " ++ err.Error) err)⟩
      | none =>
        let out2 := out1 ++ ["git add example-git-file"]
        let c3 := c2 ++ [Call.add w "example-git-file"]
        match o.add with
        | .error err =>
          ⟨c3, out2, some (.wrap ("Error adding file " ++ filename ++ ": " ++ err.Error) err)⟩
        | .ok _ =>
          let out3 := out2 ++ ["git status --porcelain"]
          let c4 := c3 ++ [Call.status w]
          match o.status with
          | .error err => ⟨c4, out3, some (.wrap ("Error getting status file " ++ err.Error) err)⟩
          | .ok status =>
            let out4 := out3 ++ [status, "git commit -m \"example go-git commit\""]
            let c5 := c4 ++ [Call.timeNow, Call.commit w msg
              { Author := { Name := "Git Ploy", Email := "gitploy@maik.fi", When := o.now } }]
            match o.commit with
            | .error err => ⟨c5, out4, some (.wrap ("Error commiting " ++ err.Error) err)⟩
            | .ok commit =>
              let out5 := out4 ++ ["git show -s"]
              let c6 := c5 ++ [Call.commitObject rc commit]
              match o.commitObject with
              | .error err => ⟨c6, out5, some (.wrap ("Error git show " ++ err.Error) err)⟩
              | .ok obj => ⟨c6, out5 ++ [obj], none⟩

/-- Method `Repo.push`. -/
def push (o : PushOutcomes) (r : Repo) : Res :=
  let c0 := [Call.plainOpen r.Directory]
  match o.plainOpen with
  | .error err =>
    ⟨c0, [], some (.wrap ("Error opening the repo in directory " ++ r.Directory ++ ": " ++ err.Error) err)⟩
  | .ok rc =>
    let c1 := c0 ++ [Call.push rc { Auth := { Username := "abc123", Password := r.token } }]
    match o.push with
    | some err =>
      ⟨c1, ["git push"], some (.wrap ("Error pushing commit to remote " ++ r.Url ++ ": " ++ err.Error) err)⟩
    | none => ⟨c1, ["git push"], none⟩

/-- The functions of the source that `main` invokes. -/
inductive Step where
  | tempFolder
  | cloneRepo
  | commit
  | push
  deriving DecidableEq, Repr

/-- One run of `main`: the functions it invoked in order, the external calls
made, the lines printed on standard output, and the message of `log.Fatal`
when the run ended in one. -/
structure Run where
  steps : List Step
  calls : List Call
  out : List String
  fatal : Option String
  deriving DecidableEq, Repr

/-- Exit status of the process: `log.Fatal` exits with 1. -/
def Run.exitCode (r : Run) : Nat := if r.fatal.isSome then 1 else 0

/-- Function `main`. -/
def main (P : Platform) (w : World) : Run :=
  let s0 := [Step.tempFolder]
  let c0 := tempFolderCalls
  match tempFolder w.tempDir with
  | (_, some err) =>
    ⟨s0, c0, [], some (GoError.wrap ("Error getting tempdir: " ++ err.Error) err).Error⟩
  | (directory, none) =>
    let pat := w.getenv "GITHUB_PAT"
    let c1 := c0 ++ [Call.getenv "GITHUB_PAT"]
    if goLen pat < 20 then
      ⟨s0, c1, [], some "Github token not found"⟩
    else
      let repo : Repo :=
        { Url := "https://github.com/maikdotfi/gitploy-dev", Directory := directory, token := pat }
      let r1 := cloneRepo w.clone repo
      let s1 := s0 ++ [Step.cloneRepo]
      match r1.err with
      | some err => ⟨s1, c1 ++ r1.calls, r1.out, some err.Error⟩
      | none =>
        let r2 := commit P w.commit repo ("Wow look at this! " ++ P.format w.now)
        let s2 := s1 ++ [Step.commit]
        let c2 := c1 ++ r1.calls ++ [Call.timeNow] ++ r2.calls
        match r2.err with
        | some err => ⟨s2, c2, r1.out ++ r2.out, some err.Error⟩
        | none =>
          let r3 := push w.push repo
          let s3 := s2 ++ [Step.push]
          match r3.err with
          | some err => ⟨s3, c2 ++ r3.calls, r1.out ++ r2.out ++ r3.out, some err.Error⟩
          | none => ⟨s3, c2 ++ r3.calls, r1.out ++ r2.out ++ r3.out, none⟩

/-! ## Observations on a log of calls -/

/-- Basic-auth credentials handed to the library by the clone and push calls
of a log. -/
def authsPresented : List Call → List BasicAuth
  | [] => []
  | .plainClone _ _ o :: cs => o.Auth :: authsPresented cs
  | .push _ o :: cs => o.Auth :: authsPresented cs
  | _ :: cs => authsPresented cs

/-- Remote URLs targeted by the clone calls of a log. -/
def cloneTargets : List Call → List String
  | [] => []
  | .plainClone _ _ o :: cs => o.URL :: cloneTargets cs
  | _ :: cs => cloneTargets cs

/-- Paths handed to `Worktree.Add` by a log. -/
def stagedPaths : List Call → List String
  | [] => []
  | .add _ path :: cs => path :: stagedPaths cs
  | _ :: cs => stagedPaths cs

/-- Commits requested from the library by a log: message and author. -/
def commitRequests : List Call → List (String × Signature)
  | [] => []
  | .commit _ msg o :: cs => (msg, o.Author) :: commitRequests cs
  | _ :: cs => commitRequests cs

/-- Calls of a log that change the filesystem or a repository, local or
remote. -/
def mutations : List Call → List Call
  | [] => []
  | .tempDir d p :: cs => .tempDir d p :: mutations cs
  | .plainClone p b o :: cs => .plainClone p b o :: mutations cs
  | .writeFile f d m :: cs => .writeFile f d m :: mutations cs
  | .add w p :: cs => .add w p :: mutations cs
  | .commit w m o :: cs => .commit w m o :: mutations cs
  | .push rc o :: cs => .push rc o :: mutations cs
  | _ :: cs => mutations cs

/-- Contents of the files of a filesystem. -/
abbrev Files := String → Option (List UInt8)

/-- Files after the writes of a log, each of which succeeded:
`ioutil.WriteFile` creates or truncates the named file and leaves it holding
exactly the data. -/
def filesAfter (fs : Files) : List Call → Files
  | [] => fs
  | .writeFile f d _ :: cs => filesAfter (fun p => if p = f then some d else fs p) cs
  | _ :: cs => filesAfter fs cs

/-- A call with the password of its credentials blanked. -/
def Call.redact : Call → Call
  | .plainClone p b o => .plainClone p b { o with Auth := { o.Auth with Password := "" } }
  | .push rc o => .push rc { o with Auth := { o.Auth with Password := "" } }
  | c => c

/-- A call that reaches the network. -/
def Call.isNetwork : Call → Bool
  | .plainClone _ _ _ => true
  | .push _ _ => true
  | _ => false

/-! ## Concrete inputs -/

/-- Platform joining with a slash and printing one fixed date. -/
def demoPlatform : Platform := ⟨fun a b => a ++ "/" ++ b, fun _ => "2024-01-01 00:00:00"⟩

/-- Clone in which every call succeeds. -/
def okClone : CloneOutcomes := ⟨.ok 1, .ok "abc", .ok "commit abc"⟩

/-- Commit in which every call succeeds. -/
def okCommit : CommitOutcomes :=
  ⟨.ok 1, .ok 2, none, .ok "h", .ok "A  example-git-file", 7, .ok "def", .ok "commit def"⟩

/-- Push in which every call succeeds. -/
def okPush : PushOutcomes := ⟨.ok 1, none⟩

/-- World in which everything succeeds and `GITHUB_PAT` holds the given value. -/
def worldWith (pat : String) : World :=
  ⟨.created "/tmp/1", fun _ => pat, 5, okClone, okCommit, okPush⟩

/-- World in which creating the temporary directory fails. -/
def worldNoTemp : World :=
  ⟨.failed ⟨"mkdir", "/tmp/2739461001", .leaf "permission denied"⟩, fun _ => "", 5,
    okClone, okCommit, okPush⟩

/-- Commit in which the file write fails. -/
def writeFails : CommitOutcomes := { okCommit with writeFile := some (.leaf "disk full") }

/-- Commit in which staging fails. -/
def addFails : CommitOutcomes := { okCommit with add := .error (.leaf "entry not found") }

/-- Commit in which creating the commit fails. -/
def commitFails : CommitOutcomes := { okCommit with commit := .error (.leaf "empty commit") }

/-- Commit and push on a directory that holds no repository. -/
def notARepo : GoError := .leaf "repository does not exist"

/-- Commit whose open fails. -/
def openFailsCommit : CommitOutcomes := { okCommit with plainOpen := .error notARepo }

/-- Push whose open fails. -/
def openFailsPush : PushOutcomes := { okPush with plainOpen := .error notARepo }

/-- Clone whose HEAD cannot be resolved. -/
def headFails : CloneOutcomes := { okClone with head := .error (.leaf "reference not found") }

/-- A repository session with a token. -/
def demoRepo : Repo := ⟨"https://example.org/r", "/tmp/1", "0123456789abcdefghij"⟩

/-! ## Helper lemmas -/

/-- Run of `main` when the temporary directory cannot be created. -/
theorem main_of_failed (P : Platform) (w : World) (pe : PathError)
    (h : w.tempDir = .failed pe) :
    main P w = ⟨[.tempFolder], [.tempDir "" ""], [],
      some ("Error getting tempdir: " ++ ("Error creating tempdir: " ++
        (pe.Op ++ " " ++ pe.Path ++ ": " ++ pe.Err.Error)))⟩ := by
  simp [main, h, tempFolder, tempFolderCalls, GoError.Error, PathError.toError]

/-- Run of `main` when the token is too short for the guard. -/
theorem main_of_short (P : Platform) (w : World) (p : String)
    (h : w.tempDir = .created p) (hs : goLen (w.getenv "GITHUB_PAT") < 20) :
    main P w = ⟨[.tempFolder], [.tempDir "" "", .getenv "GITHUB_PAT"], [],
      some "Github token not found"⟩ := by
  simp [main, h, tempFolder, tempFolderCalls, hs]

/-- Run of `main` once the directory exists and the token passes the guard. -/
theorem main_of_long (P : Platform) (w : World) (p : String)
    (h : w.tempDir = .created p) (hl : 20 ≤ goLen (w.getenv "GITHUB_PAT")) :
    main P w =
      (let repo : Repo :=
        { Url := "https://github.com/maikdotfi/gitploy-dev", Directory := p,
          token := w.getenv "GITHUB_PAT" }
       let c1 := [Call.tempDir "" "", Call.getenv "GITHUB_PAT"]
       let r1 := cloneRepo w.clone repo
       match r1.err with
       | some err => ⟨[.tempFolder, .cloneRepo], c1 ++ r1.calls, r1.out, some err.Error⟩
       | none =>
         let r2 := commit P w.commit repo ("Wow look at this! " ++ P.format w.now)
         let c2 := c1 ++ r1.calls ++ [Call.timeNow] ++ r2.calls
         match r2.err with
         | some err => ⟨[.tempFolder, .cloneRepo, .commit], c2, r1.out ++ r2.out, some err.Error⟩
         | none =>
           let r3 := push w.push repo
           match r3.err with
           | some err => ⟨[.tempFolder, .cloneRepo, .commit, .push], c2 ++ r3.calls,
               r1.out ++ r2.out ++ r3.out, some err.Error⟩
           | none => ⟨[.tempFolder, .cloneRepo, .commit, .push], c2 ++ r3.calls,
               r1.out ++ r2.out ++ r3.out, none⟩) := by
  have hl2 : ¬ goLen (w.getenv "GITHUB_PAT") < 20 := Nat.not_lt.mpr hl
  simp only [main, h, tempFolder, tempFolderCalls, hl2, if_false]
  rfl


theorem cloneRepo_mem_plainClone (o : CloneOutcomes) (r : Repo) (path : String) (b : Bool)
    (op : CloneOptions) (h : Call.plainClone path b op ∈ (cloneRepo o r).calls) :
    op.Auth.Password = r.token := by
  unfold cloneRepo at h
  (repeat' split at h) <;> simp at h <;> simp [h]

theorem commit_not_mem_plainClone (P : Platform) (o : CommitOutcomes) (r : Repo) (msg : String)
    (path : String) (b : Bool) (op : CloneOptions) :
    Call.plainClone path b op ∉ (commit P o r msg).calls := by
  unfold commit
  (repeat' split) <;> simp

theorem push_not_mem_plainClone (o : PushOutcomes) (r : Repo)
    (path : String) (b : Bool) (op : CloneOptions) :
    Call.plainClone path b op ∉ (push o r).calls := by
  unfold push
  (repeat' split) <;> simp

/-- Every clone call of a run of `main` carries the value of `GITHUB_PAT` as
its password, and that value passed the guard. -/
theorem main_mem_plainClone (P : Platform) (w : World) (path : String) (b : Bool)
    (op : CloneOptions) (h : Call.plainClone path b op ∈ (main P w).calls) :
    op.Auth.Password = w.getenv "GITHUB_PAT" ∧ 20 ≤ goLen (w.getenv "GITHUB_PAT") := by
  cases ht : w.tempDir with
  | failed pe => rw [main_of_failed P w pe ht] at h; simp at h
  | created p =>
    by_cases hs : goLen (w.getenv "GITHUB_PAT") < 20
    · rw [main_of_short P w p ht hs] at h; simp at h
    · have hl : 20 ≤ goLen (w.getenv "GITHUB_PAT") := Nat.not_lt.mp hs
      refine ⟨?_, hl⟩
      rw [main_of_long P w p ht hl] at h
      simp only at h
      (repeat' split at h) <;>
        simp only [List.mem_append, List.mem_cons, List.mem_singleton, List.not_mem_nil,
          or_false, false_or, reduceCtorEq] at h <;>
        (repeat' rcases h with h | h) <;>
        first
          | exact cloneRepo_mem_plainClone _ _ _ _ _ h
          | exact absurd h (commit_not_mem_plainClone _ _ _ _ _ _ _)
          | exact absurd h (push_not_mem_plainClone _ _ _ _ _)

/-! ## C1: the token guard -/

/-- C1 as stated fails: a token of ten two-byte characters is shorter than 20
characters, yet its Go length is 20, so the guard lets it through: the run is
not fatal, `cloneRepo`, `commit` and `push` are invoked, and the clone call
carries that ten-character token. -/
theorem short_in_characters_token_reaches_clone :
    ("éééééééééé".length < 20) ∧
    (main demoPlatform (worldWith "éééééééééé")).fatal = none ∧
    (main demoPlatform (worldWith "éééééééééé")).steps
      = [.tempFolder, .cloneRepo, .commit, .push] ∧
    Call.plainClone "/tmp/1" false
      { Auth := { Username := "abc123", Password := "éééééééééé" },
        URL := "https://github.com/maikdotfi/gitploy-dev", Progress := .stdout }
      ∈ (main demoPlatform (worldWith "éééééééééé")).calls := by
  refine ⟨by decide, by decide, by decide, by decide⟩

/-- C1 (amended): for every value of `GITHUB_PAT` whose length in bytes (Go
`len`) is below 20, unset and empty included, `main` ends fatally having
invoked only `tempFolder` and made no network call; and every clone call a run
makes carries as password the value of `GITHUB_PAT`, of at least 20 bytes. -/
theorem main_short_token_no_network (P : Platform) (w : World) :
    (goLen (w.getenv "GITHUB_PAT") < 20 →
      (main P w).steps = [.tempFolder] ∧ (main P w).fatal.isSome ∧ (main P w).exitCode = 1 ∧
      ∀ c ∈ (main P w).calls, c.isNetwork = false) ∧
    (∀ path b op, Call.plainClone path b op ∈ (main P w).calls →
      op.Auth.Password = w.getenv "GITHUB_PAT" ∧ 20 ≤ goLen op.Auth.Password) := by
  constructor
  · intro hs
    cases ht : w.tempDir with
    | failed pe => rw [main_of_failed P w pe ht]; simp [Run.exitCode, Call.isNetwork]
    | created p => rw [main_of_short P w p ht hs]; simp [Run.exitCode, Call.isNetwork]
  · intro path b op h
    have := main_mem_plainClone P w path b op h
    exact ⟨this.1, this.1 ▸ this.2⟩

/-- C1 at a token of five bytes: only `tempFolder` runs. -/
theorem main_short_token_no_network_witness :
    goLen ((worldWith "token").getenv "GITHUB_PAT") < 20 ∧
    (main demoPlatform (worldWith "token")).steps = [.tempFolder] :=
  ⟨by decide, ((main_short_token_no_network demoPlatform (worldWith "token")).1 (by decide)).1⟩


/-- The steps of a run are one of the four initial segments. -/
theorem main_steps_cases (P : Platform) (w : World) :
    (main P w).steps = [.tempFolder] ∨ (main P w).steps = [.tempFolder, .cloneRepo] ∨
    (main P w).steps = [.tempFolder, .cloneRepo, .commit] ∨
    (main P w).steps = [.tempFolder, .cloneRepo, .commit, .push] := by
  cases ht : w.tempDir with
  | failed pe => rw [main_of_failed P w pe ht]; simp
  | created p =>
    by_cases hs : goLen (w.getenv "GITHUB_PAT") < 20
    · rw [main_of_short P w p ht hs]; simp
    · rw [main_of_long P w p ht (Nat.not_lt.mp hs)]
      simp only
      (repeat' split) <;> simp

/-! ## C2: the steps of a run -/

/-- C2: the steps of a run of `main` are an initial segment of `tempFolder`,
`cloneRepo`, `commit`, `push`, none repeated; the run ends fatally with exit
status 1 right after the first step that returns an error; and when the token
passes the guard and no step fails all four steps are invoked, once each, and
the run is not fatal. -/
theorem main_steps_linear (P : Platform) (w : World) :
    (main P w).steps <+: [Step.tempFolder, .cloneRepo, .commit, .push] ∧
    (main P w).steps.Nodup ∧
    (∀ e, (tempFolder w.tempDir).2 = some e →
      (main P w).steps = [.tempFolder] ∧ (main P w).exitCode = 1) ∧
    (∀ dir, tempFolder w.tempDir = (dir, none) → 20 ≤ goLen (w.getenv "GITHUB_PAT") →
      ∀ repo : Repo, repo = Repo.mk "https://github.com/maikdotfi/gitploy-dev" dir
          (w.getenv "GITHUB_PAT") →
      ∀ msg : String, msg = "Wow look at this! " ++ P.format w.now →
      ((cloneRepo w.clone repo).err ≠ none →
        (main P w).steps = [.tempFolder, .cloneRepo] ∧ (main P w).exitCode = 1) ∧
      ((cloneRepo w.clone repo).err = none → (commit P w.commit repo msg).err ≠ none →
        (main P w).steps = [.tempFolder, .cloneRepo, .commit] ∧ (main P w).exitCode = 1) ∧
      ((cloneRepo w.clone repo).err = none → (commit P w.commit repo msg).err = none →
        (push w.push repo).err ≠ none →
        (main P w).steps = [.tempFolder, .cloneRepo, .commit, .push] ∧
        (main P w).exitCode = 1) ∧
      ((cloneRepo w.clone repo).err = none → (commit P w.commit repo msg).err = none →
        (push w.push repo).err = none →
        (main P w).steps = [.tempFolder, .cloneRepo, .commit, .push] ∧
        (main P w).fatal = none ∧ (main P w).exitCode = 0)) := by
  refine ⟨?_, ?_, ?_, ?_⟩
  · rcases main_steps_cases P w with h | h | h | h <;> rw [h] <;> decide
  · rcases main_steps_cases P w with h | h | h | h <;> rw [h] <;> decide
  · intro e he
    cases ht : w.tempDir with
    | failed pe => rw [main_of_failed P w pe ht]; simp [Run.exitCode]
    | created p => rw [ht] at he; simp [tempFolder] at he
  · intro dir hd hl repo hrepo msg hmsg
    cases ht : w.tempDir with
    | failed pe => rw [ht] at hd; simp [tempFolder] at hd
    | created p =>
      rw [ht] at hd
      simp only [tempFolder, Prod.mk.injEq, and_true] at hd
      subst hd
      rw [main_of_long P w p ht hl]
      simp only [← hrepo, ← hmsg]
      refine ⟨?_, ?_, ?_, ?_⟩
      · intro h1
        cases h : (cloneRepo w.clone repo).err with
        | none => exact absurd h h1
        | some e => simp [Run.exitCode]
      · intro h1 h2
        cases h : (commit P w.commit repo msg).err with
        | none => exact absurd h h2
        | some e => simp [h1, Run.exitCode]
      · intro h1 h2 h3
        cases h : (push w.push repo).err with
        | none => exact absurd h h3
        | some e => simp [h1, h2, Run.exitCode]
      · intro h1 h2 h3
        simp [h1, h2, h3, Run.exitCode]

/-- C2 at a world where everything succeeds and at one where the clone fails. -/
theorem main_steps_linear_witness :
    (main demoPlatform (worldWith "0123456789abcdefghij")).steps
      = [.tempFolder, .cloneRepo, .commit, .push] ∧
    (main demoPlatform (worldWith "0123456789abcdefghij")).fatal = none :=
  have h := ((main_steps_linear demoPlatform (worldWith "0123456789abcdefghij")).2.2.2
    "/tmp/1" rfl (by decide) _ rfl _ rfl).2.2.2 (by decide) (by decide) (by decide)
  ⟨h.1, h.2.1⟩

/-! ## C3: the order of provisioning and the guard -/

/-- C3 as stated fails: with `GITHUB_PAT` unset the length check fails, yet
`tempFolder` has been invoked, `ioutil.TempDir` has been called and has created
a directory, before the run ends on the guard. -/
theorem tempFolder_runs_before_guard :
    goLen ((worldWith "").getenv "GITHUB_PAT") < 20 ∧
    (worldWith "").tempDir = .created "/tmp/1" ∧
    Step.tempFolder ∈ (main demoPlatform (worldWith "")).steps ∧
    (main demoPlatform (worldWith "")).calls = [.tempDir "" "", .getenv "GITHUB_PAT"] ∧
    (main demoPlatform (worldWith "")).fatal = some "Github token not found" := by
  refine ⟨by decide, rfl, by decide, by decide, by decide⟩

/-- C3 (amended): `main` provisions the workspace first and only then reads
and checks the credential.  Every run starts by invoking `tempFolder`; when
that fails the credential is never read; when it succeeds and the credential
fails the length check, the run has made exactly the calls `ioutil.TempDir`
and `os.Getenv`, in that order, so the directory exists, and it ends with the
fatal message of the guard without invoking `cloneRepo`, `commit` or `push`. -/
theorem main_provisions_then_checks (P : Platform) (w : World) :
    (main P w).steps.head? = some .tempFolder ∧
    (main P w).calls.head? = some (.tempDir "" "") ∧
    (∀ pe, w.tempDir = .failed pe → (main P w).calls = [.tempDir "" ""]) ∧
    (∀ p, w.tempDir = .created p → goLen (w.getenv "GITHUB_PAT") < 20 →
      (main P w).steps = [.tempFolder] ∧
      (main P w).calls = [.tempDir "" "", .getenv "GITHUB_PAT"] ∧
      (main P w).fatal = some "Github token not found") := by
  refine ⟨?_, ?_, ?_, ?_⟩
  · rcases main_steps_cases P w with h | h | h | h <;> rw [h] <;> rfl
  · cases ht : w.tempDir with
    | failed pe => rw [main_of_failed P w pe ht]; rfl
    | created p =>
      by_cases hs : goLen (w.getenv "GITHUB_PAT") < 20
      · rw [main_of_short P w p ht hs]; rfl
      · rw [main_of_long P w p ht (Nat.not_lt.mp hs)]
        simp only
        (repeat' split) <;> rfl
  · intro pe ht
    rw [main_of_failed P w pe ht]
  · intro p ht hs
    rw [main_of_short P w p ht hs]
    exact ⟨rfl, rfl, rfl⟩

/-- C3 at an unset credential. -/
theorem main_provisions_then_checks_witness :
    (worldWith "").tempDir = .created "/tmp/1" ∧
    goLen ((worldWith "").getenv "GITHUB_PAT") < 20 ∧
    (main demoPlatform (worldWith "")).steps = [.tempFolder] :=
  ⟨rfl, by decide,
    ((main_provisions_then_checks demoPlatform (worldWith "")).2.2.2 "/tmp/1" rfl (by decide)).1⟩


/-! ## The calls of a commit -/

/-- Calls, output and handles of a `commit` that returned no error. -/
theorem commit_ok_shape (P : Platform) (o : CommitOutcomes) (r : Repo) (msg : String)
    (h : (commit P o r msg).err = none) :
    ∃ rc w hc st obj, o.commit = .ok hc ∧ o.status = .ok st ∧ o.commitObject = .ok obj ∧
      (commit P o r msg).calls =
        [.plainOpen r.Directory, .worktree rc,
         .writeFile (P.join r.Directory "example-git-file") (goBytes msg) 0o644,
         .add w "example-git-file", .status w, .timeNow,
         .commit w msg { Author := { Name := "Git Ploy", Email := "gitploy@maik.fi", When := o.now } },
         .commitObject rc hc] := by
  obtain ⟨po, wt, wf, ad, st, nw, cm, co⟩ := o
  cases po <;> cases wt <;> cases wf <;> cases ad <;> cases st <;> cases cm <;> cases co <;>
    simp [commit] at h ⊢

/-! ## C4: what a successful commit writes, stages and commits -/

/-- C4: when `r.commit(msg)` returns no error, it wrote one file, the one named
by joining `Directory` and `example-git-file`, with the bytes of `msg`, so that
whatever the files held before, that file now holds exactly those bytes; it
staged exactly the path `example-git-file`; and it requested exactly one
commit, with message `msg` and the author `Git Ploy`, `gitploy@maik.fi`. -/
theorem commit_writes_stages_commits (P : Platform) (o : CommitOutcomes) (r : Repo)
    (msg : String) (h : (commit P o r msg).err = none) :
    (∀ fs : Files, filesAfter fs (commit P o r msg).calls
      (P.join r.Directory "example-git-file") = some (goBytes msg)) ∧
    stagedPaths (commit P o r msg).calls = ["example-git-file"] ∧
    commitRequests (commit P o r msg).calls
      = [(msg, { Name := "Git Ploy", Email := "gitploy@maik.fi", When := o.now })] := by
  obtain ⟨rc, w, hc, st, obj, -, -, -, hcalls⟩ := commit_ok_shape P o r msg h
  rw [hcalls]
  refine ⟨?_, rfl, rfl⟩
  intro fs
  simp [filesAfter]

/-- C4 at the commit in which every call succeeds. -/
theorem commit_writes_stages_commits_witness :
    stagedPaths (commit demoPlatform okCommit demoRepo "hello-test").calls
      = ["example-git-file"] ∧
    commitRequests (commit demoPlatform okCommit demoRepo "hello-test").calls
      = [("hello-test", { Name := "Git Ploy", Email := "gitploy@maik.fi", When := 7 })] :=
  (commit_writes_stages_commits demoPlatform okCommit demoRepo "hello-test" (by decide)).2


/-! ## Texts of the errors -/

/-- The texts of the three sub-step errors of `commit` differ at their
seventh character, whatever follows. -/
theorem commit_error_texts_ne (f1 f2 c1 c2 c3 : String) :
    "Error writing to file " ++ f1 ++ ": " ++ c1 ≠ "Error adding file " ++ f2 ++ ": " ++ c2 ∧
    "Error writing to file " ++ f1 ++ ": " ++ c1 ≠ "Error commiting " ++ c3 ∧
    "Error adding file " ++ f2 ++ ": " ++ c2 ≠ "Error commiting " ++ c3 := by
  refine ⟨?_, ?_, ?_⟩ <;>
  · intro h
    have := congrArg String.data h
    simp at this

/-- A text contains each piece it was concatenated from. -/
theorem hasSubstr_middle (a b c d : String) : hasSubstr (a ++ b ++ c ++ d) b := by
  unfold hasSubstr
  exact ⟨a.data, c.data ++ d.data, by simp [String.data_append]⟩

/-- Putting text in front of a text keeps what it contains. -/
theorem hasSubstr_append_left (a s t : String) (h : hasSubstr s t) : hasSubstr (a ++ s) t := by
  unfold hasSubstr at h ⊢
  obtain ⟨u, v, huv⟩ := h
  exact ⟨a.data ++ u, v, by simp [String.data_append, ← huv]⟩

/-! ## C5: the sub-step errors of commit -/

/-- C5: in `commit`, a failing file write, a failing staging and a failing
commit creation each return an error that wraps the cause, with the text
`Error writing to file <file>: <cause>`, `Error adding file <file>: <cause>`
and `Error commiting <cause>`; and whatever the repositories, messages and
causes, the three texts are pairwise different. -/
theorem commit_substep_errors_distinct (P : Platform) (r1 r2 r3 : Repo) (m1 m2 m3 : String)
    (o1 o2 o3 : CommitOutcomes) (e1 e2 e3 : GoError) (rc1 rc2 rc3 : RepoHandle)
    (w1 w2 w3 : TreeHandle) (a3 : Hash) (s3 : String)
    (h1o : o1.plainOpen = .ok rc1) (h1w : o1.worktree = .ok w1) (h1 : o1.writeFile = some e1)
    (h2o : o2.plainOpen = .ok rc2) (h2w : o2.worktree = .ok w2) (h2f : o2.writeFile = none)
    (h2 : o2.add = .error e2)
    (h3o : o3.plainOpen = .ok rc3) (h3w : o3.worktree = .ok w3) (h3f : o3.writeFile = none)
    (h3a : o3.add = .ok a3) (h3s : o3.status = .ok s3) (h3 : o3.commit = .error e3) :
    ∃ x1 x2 x3,
      (commit P o1 r1 m1).err = some x1 ∧ (commit P o2 r2 m2).err = some x2 ∧
      (commit P o3 r3 m3).err = some x3 ∧
      x1 = .wrap ("Error writing to file " ++ P.join r1.Directory "example-git-file" ++ ": "
        ++ e1.Error) e1 ∧
      x2 = .wrap ("Error adding file " ++ P.join r2.Directory "example-git-file" ++ ": "
        ++ e2.Error) e2 ∧
      x3 = .wrap ("Error commiting " ++ e3.Error) e3 ∧
      x1.Unwrap = some e1 ∧ x2.Unwrap = some e2 ∧ x3.Unwrap = some e3 ∧
      x1.Error ≠ x2.Error ∧ x1.Error ≠ x3.Error ∧ x2.Error ≠ x3.Error := by
  have hne := commit_error_texts_ne (P.join r1.Directory "example-git-file")
    (P.join r2.Directory "example-git-file") e1.Error e2.Error e3.Error
  refine ⟨_, _, _, ?_, ?_, ?_, rfl, rfl, rfl, rfl, rfl, rfl, ?_, ?_, ?_⟩
  · simp [commit, h1o, h1w, h1]
  · simp [commit, h2o, h2w, h2f, h2]
  · simp [commit, h3o, h3w, h3f, h3a, h3s, h3]
  · simpa [GoError.Error] using hne.1
  · simpa [GoError.Error] using hne.2.1
  · simpa [GoError.Error] using hne.2.2

/-- C5 at one failing commit of each kind. -/
theorem commit_substep_errors_distinct_witness :
    ∃ x1 x2 x3,
      (commit demoPlatform writeFails demoRepo "m").err = some x1 ∧
      (commit demoPlatform addFails demoRepo "m").err = some x2 ∧
      (commit demoPlatform commitFails demoRepo "m").err = some x3 ∧
      x1.Error ≠ x2.Error ∧ x1.Error ≠ x3.Error ∧ x2.Error ≠ x3.Error := by
  obtain ⟨x1, x2, x3, h1, h2, h3, -, -, -, -, -, -, n1, n2, n3⟩ :=
    commit_substep_errors_distinct demoPlatform demoRepo demoRepo demoRepo "m" "m" "m"
      writeFails addFails commitFails (.leaf "disk full") (.leaf "entry not found")
      (.leaf "empty commit") 1 1 1 2 2 2 "h" "A  example-git-file"
      rfl rfl rfl rfl rfl rfl rfl rfl rfl rfl rfl rfl rfl
  exact ⟨x1, x2, x3, h1, h2, h3, n1, n2, n3⟩

/-! ## C6: the error of cloneRepo -/

/-- C6: whichever of the clone, the resolution of HEAD and the retrieval of
its commit fails, `cloneRepo` returns the error that wraps the cause with the
text `Error cloning the repository <Url>: <cause>`; and it returns nil exactly
when all three succeed. -/
theorem cloneRepo_error_shape (o : CloneOutcomes) (r : Repo) :
    (∀ e, o.plainClone = .error e → (cloneRepo o r).err
      = some (.wrap ("Error cloning the repository " ++ r.Url ++ ": " ++ e.Error) e)) ∧
    (∀ rc e, o.plainClone = .ok rc → o.head = .error e → (cloneRepo o r).err
      = some (.wrap ("Error cloning the repository " ++ r.Url ++ ": " ++ e.Error) e)) ∧
    (∀ rc ref e, o.plainClone = .ok rc → o.head = .ok ref → o.commitObject = .error e →
      (cloneRepo o r).err
        = some (.wrap ("Error cloning the repository " ++ r.Url ++ ": " ++ e.Error) e)) ∧
    ((cloneRepo o r).err = none ↔
      ∃ rc ref c, o.plainClone = .ok rc ∧ o.head = .ok ref ∧ o.commitObject = .ok c) := by
  obtain ⟨pc, hd, co⟩ := o
  cases pc <;> cases hd <;> cases co <;> simp [cloneRepo]

/-- C6 at a clone whose HEAD cannot be resolved. -/
theorem cloneRepo_error_shape_witness :
    (cloneRepo headFails demoRepo).err
      = some (.wrap "Error cloning the repository https://example.org/r: reference not found"
          (.leaf "reference not found")) :=
  (cloneRepo_error_shape headFails demoRepo).2.1 1 (.leaf "reference not found") rfl rfl


/-! ## C7: the texts of the filesystem errors -/

/-- C7: every filesystem error comes back wrapped in an error whose text
contains the path involved.  When `ioutil.TempDir` fails, `tempFolder` returns
the empty path and an error that wraps the path error, with the text
`Error creating tempdir: ` before the text of the path error, and `main`
reports that text with `Error getting tempdir: ` in front: both contain the
path at which the creation failed.  When the file write of `commit` fails,
`commit` returns an error that wraps the cause and whose text contains the
path of the file. -/
theorem filesystem_error_texts (P : Platform) (w : World) (o : CommitOutcomes) (r : Repo)
    (msg : String) :
    (∀ pe, w.tempDir = .failed pe →
      ∃ x m, tempFolder w.tempDir = ("", some x) ∧ x.Unwrap = some pe.toError ∧
        x.Error = "Error creating tempdir: " ++ (pe.Op ++ " " ++ pe.Path ++ ": " ++ pe.Err.Error) ∧
        hasSubstr x.Error pe.Path ∧
        (main P w).fatal = some m ∧ m = "Error getting tempdir: " ++ x.Error ∧
        hasSubstr m pe.Path) ∧
    (∀ rc t e, o.plainOpen = .ok rc → o.worktree = .ok t → o.writeFile = some e →
      ∃ x, (commit P o r msg).err = some x ∧ x.Unwrap = some e ∧
        hasSubstr x.Error (P.join r.Directory "example-git-file")) := by
  constructor
  · intro pe ht
    have hp : hasSubstr (pe.Op ++ " " ++ pe.Path ++ ": " ++ pe.Err.Error) pe.Path :=
      hasSubstr_middle _ _ _ _
    refine ⟨.wrap ("Error creating tempdir: " ++ pe.toError.Error) pe.toError, _, ?_, rfl, rfl,
      hasSubstr_append_left _ _ _ hp, ?_, rfl,
      hasSubstr_append_left _ _ _ (hasSubstr_append_left _ _ _ hp)⟩
    · rw [ht]; rfl
    · rw [main_of_failed P w pe ht]; rfl
  · intro rc t e h1 h2 h3
    refine ⟨.wrap ("Error writing to file " ++ P.join r.Directory "example-git-file" ++ ": "
      ++ e.Error) e, ?_, rfl, ?_⟩
    · simp [commit, h1, h2, h3]
    · exact hasSubstr_middle _ _ _ _

/-- C7 at a temporary directory that cannot be created and at a failing file
write. -/
theorem filesystem_error_texts_witness :
    (∃ x m, tempFolder worldNoTemp.tempDir = ("", some x) ∧
      (main demoPlatform worldNoTemp).fatal = some m ∧
      m = "Error getting tempdir: Error creating tempdir: mkdir /tmp/2739461001: permission denied" ∧
      hasSubstr x.Error "/tmp/2739461001" ∧ hasSubstr m "/tmp/2739461001") ∧
    (∃ x, (commit demoPlatform writeFails demoRepo "m").err = some x ∧
      x.Unwrap = some (.leaf "disk full") ∧
      hasSubstr x.Error (demoPlatform.join demoRepo.Directory "example-git-file")) := by
  have h := filesystem_error_texts demoPlatform worldNoTemp writeFails demoRepo "m"
  obtain ⟨x, m, h1, -, h3, h4, h5, h6, h7⟩ :=
    h.1 ⟨"mkdir", "/tmp/2739461001", .leaf "permission denied"⟩ rfl
  refine ⟨⟨x, m, h1, h5, ?_, h4, h7⟩, h.2 1 2 (.leaf "disk full") rfl rfl rfl⟩
  rw [h6, h3]
  decide

/-! ## C8: the credentials handed to the library -/

/-- C8: `cloneRepo` hands the library exactly one set of credentials, user
`abc123` and password `r.token`, and targets exactly `r.Url`; every set of
credentials `push` hands over is the same pair, and it hands it over once
whenever the repository opens; the user name is not empty and does not depend
on `r`. -/
theorem clone_push_same_basic_auth (o : CloneOutcomes) (po : PushOutcomes) (r : Repo) :
    authsPresented (cloneRepo o r).calls = [{ Username := "abc123", Password := r.token }] ∧
    cloneTargets (cloneRepo o r).calls = [r.Url] ∧
    (∀ a ∈ authsPresented (push po r).calls, a = { Username := "abc123", Password := r.token }) ∧
    (∀ rc, po.plainOpen = .ok rc →
      authsPresented (push po r).calls = [{ Username := "abc123", Password := r.token }]) ∧
    (∀ a ∈ authsPresented (cloneRepo o r).calls ++ authsPresented (push po r).calls,
      a.Username ≠ "") := by
  obtain ⟨pc, hd, co⟩ := o
  obtain ⟨pp, ps⟩ := po
  cases pc <;> cases hd <;> cases co <;> cases pp <;> cases ps <;>
    simp [cloneRepo, push, authsPresented, cloneTargets]

/-- C8 at a push on an opened repository. -/
theorem clone_push_same_basic_auth_witness :
    authsPresented (push okPush demoRepo).calls
      = [{ Username := "abc123", Password := "0123456789abcdefghij" }] :=
  (clone_push_same_basic_auth okClone okPush demoRepo).2.2.2.1 1 rfl

/-! ## C9: commit and push where no repository is -/

/-- C9: when opening the repository in `Directory` fails, `r.commit(msg)`
returns at once the error wrapping that failure: its only call is the open,
it prints nothing, writes no file, stages and commits nothing, so the files
are as before; and `r.push()` returns the error wrapping the failure of its
open, having made no other call, in particular no push. -/
theorem commit_push_need_repository (P : Platform) (o : CommitOutcomes) (po : PushOutcomes)
    (r : Repo) (msg : String) (e e2 : GoError)
    (hc : o.plainOpen = .error e) (hp : po.plainOpen = .error e2) :
    commit P o r msg = ⟨[.plainOpen r.Directory], [],
      some (.wrap ("Error opening the repo in directory " ++ r.Directory ++ ": " ++ e.Error) e)⟩ ∧
    mutations (commit P o r msg).calls = [] ∧
    (∀ fs : Files, filesAfter fs (commit P o r msg).calls = fs) ∧
    push po r = ⟨[.plainOpen r.Directory], [],
      some (.wrap ("Error opening the repo in directory " ++ r.Directory ++ ": " ++ e2.Error) e2)⟩ ∧
    mutations (push po r).calls = [] := by
  have h1 : commit P o r msg = ⟨[.plainOpen r.Directory], [],
      some (.wrap ("Error opening the repo in directory " ++ r.Directory ++ ": " ++ e.Error) e)⟩ := by
    simp [commit, hc]
  have h2 : push po r = ⟨[.plainOpen r.Directory], [],
      some (.wrap ("Error opening the repo in directory " ++ r.Directory ++ ": " ++ e2.Error) e2)⟩ := by
    simp [push, hp]
  rw [h1, h2]
  exact ⟨rfl, rfl, fun _ => rfl, rfl, rfl⟩

/-- C9 at a directory that holds no repository. -/
theorem commit_push_need_repository_witness :
    (commit demoPlatform openFailsCommit demoRepo "m").calls = [.plainOpen "/tmp/1"] ∧
    (push openFailsPush demoRepo).calls = [.plainOpen "/tmp/1"] :=
  have h := commit_push_need_repository demoPlatform openFailsCommit openFailsPush demoRepo "m"
    notARepo notARepo rfl rfl
  ⟨congrArg Res.calls h.1, congrArg Res.calls h.2.2.2.1⟩

/-! ## C10: the token stays out of the program's text -/

/-- C10: for two repositories that differ at most in their token and the same
outcomes of the external calls, `cloneRepo`, `commit` and `push` print the same
lines and return the same errors; `commit` makes the very same calls, and the
calls of `cloneRepo` and `push` are the same once the password of the
credentials is blanked. -/
theorem token_stays_out_of_text (P : Platform) (oc : CloneOutcomes) (om : CommitOutcomes)
    (op : PushOutcomes) (r r2 : Repo) (msg : String)
    (hu : r.Url = r2.Url) (hd : r.Directory = r2.Directory) :
    (cloneRepo oc r).out = (cloneRepo oc r2).out ∧
    (cloneRepo oc r).err = (cloneRepo oc r2).err ∧
    commit P om r msg = commit P om r2 msg ∧
    (push op r).out = (push op r2).out ∧
    (push op r).err = (push op r2).err ∧
    (cloneRepo oc r).calls.map Call.redact = (cloneRepo oc r2).calls.map Call.redact ∧
    (push op r).calls.map Call.redact = (push op r2).calls.map Call.redact := by
  obtain ⟨u, d, t⟩ := r
  obtain ⟨u2, d2, t2⟩ := r2
  simp only at hu hd
  subst hu hd
  obtain ⟨pc, hd, co⟩ := oc
  obtain ⟨pp, ps⟩ := op
  refine ⟨?_, ?_, ?_, ?_, ?_, ?_, ?_⟩
  · cases pc <;> cases hd <;> cases co <;> simp [cloneRepo]
  · cases pc <;> cases hd <;> cases co <;> simp [cloneRepo]
  · simp [commit]
  · cases pp <;> cases ps <;> simp [push]
  · cases pp <;> cases ps <;> simp [push]
  · cases pc <;> cases hd <;> cases co <;> simp [cloneRepo, Call.redact]
  · cases pp <;> cases ps <;> simp [push, Call.redact]

/-- C10 at two tokens. -/
theorem token_stays_out_of_text_witness :
    (cloneRepo headFails demoRepo).err
      = (cloneRepo headFails { demoRepo with token := "zyxwvutsrqponmlkjihg" }).err ∧
    (push okPush demoRepo).out
      = (push okPush { demoRepo with token := "zyxwvutsrqponmlkjihg" }).out :=
  have h := token_stays_out_of_text demoPlatform headFails okCommit okPush demoRepo
    { demoRepo with token := "zyxwvutsrqponmlkjihg" } "m" rfl rfl
  ⟨h.2.1, h.2.2.2.1⟩

end Gitploy
